import Mathlib

/-!
Shallow embedding of `import-instruments.py` (repository Simplifyed): a
one-shot ETL script that clears the `instruments` table, re-imports it from a
CSV file in batches, rebuilds the `instruments_fts` search index, appends a
row to `instruments_refresh_log`, and prints summary reports.

The embedding models:
  * Python `float(...)` / `int(...)` on decimal strings (`pyFloat`, `pyInt`,
    exact rational semantics for the decimal literals the data uses);
  * the per-field sentinel/null coercions of lines 57-71;
  * the sqlite connection as a committed snapshot plus a pending
    (uncommitted) state, `commit` publishing the pending state;
  * the import loop of lines 44-74 (`importLoop`), including the fact that
    the local variable `batch` starts unbound (`Option` with `none` =
    unbound, raising `UnboundLocalError` when used);
  * the whole run (`importInstruments`) and the `__main__` wrapper with its
    exit codes (`pyMain`), errors as an `Except`-style outcome;
  * the reporter of lines 117-150 (`reportPhase`), which applies `:20s`-like
    string format specifiers to possibly-NULL columns (`pyFmtS`), working on
    exactly the column projections the SELECT statements fetch.

`datetime.now()` is modelled by a clock function `Nat → String` together with
a tick counter threaded through the run (each `now()` call consumes a tick).
-/

/-- Python exception kinds that the script can raise. -/
inductive PyError where
  | valueError
  | unboundLocal
  | zeroDivision
  | typeError
deriving Repr, DecidableEq

/-- One data row of the CSV file, keyed by the header columns
(line 55 of the source lists them in this order). -/
structure Row where
  id : String
  symbol : String
  brsymbol : String
  name : String
  exchange : String
  brexchange : String
  token : String
  expiry : String
  strike : String
  lotsize : String
  instrumenttype : String
  tick_size : String
deriving Repr, DecidableEq

instance exceptDecEq {ε α : Type} [DecidableEq ε] [DecidableEq α] :
    DecidableEq (Except ε α)
  | .error e, .error f =>
    if h : e = f then .isTrue (by rw [h]) else .isFalse (by simp [h])
  | .error _, .ok _ => .isFalse (by simp)
  | .ok _, .error _ => .isFalse (by simp)
  | .ok a, .ok b =>
    if h : a = b then .isTrue (by rw [h]) else .isFalse (by simp [h])

/-- Decimal digit value of a character, `none` when not a digit. -/
def digitVal (c : Char) : Option Nat :=
  if '0' ≤ c ∧ c ≤ '9' then some (c.toNat - '0'.toNat) else none

/-- Is every character a decimal digit? -/
def allDigits (cs : List Char) : Bool :=
  cs.all (fun c => (digitVal c).isSome)

/-- Numeric value of a digit string (most significant first). -/
def natOfDigits (cs : List Char) : Nat :=
  cs.foldl (fun acc c => acc * 10 + (digitVal c).getD 0) 0

/-- Model of Python `int(s)`: an optional sign followed by a nonempty run of
decimal digits; anything else raises `ValueError` (modelled as `none`). -/
def pyInt (s : String) : Option Int :=
  match s.toList with
  | '-' :: cs =>
      if cs ≠ [] ∧ allDigits cs then some (-(natOfDigits cs : Int)) else none
  | '+' :: cs =>
      if cs ≠ [] ∧ allDigits cs then some ((natOfDigits cs : Int)) else none
  | cs =>
      if cs ≠ [] ∧ allDigits cs then some ((natOfDigits cs : Int)) else none

/-- Unsigned part of `pyFloat`: digits, optionally followed by a point and
more digits, at least one digit in total (Python accepts `1.` and `.5`).
Returns numerator and denominator of the exact rational the decimal literal
denotes. -/
def pyFloatCore (cs : List Char) : Option (Nat × Nat) :=
  let ip := cs.takeWhile (fun c => c ≠ '.')
  let rest := cs.dropWhile (fun c => c ≠ '.')
  match rest with
  | [] =>
      if ip ≠ [] ∧ allDigits ip then some (natOfDigits ip, 1) else none
  | _ :: fp =>
      if (ip ≠ [] ∨ fp ≠ []) ∧ allDigits ip ∧ allDigits fp then
        some (natOfDigits ip * 10 ^ fp.length + natOfDigits fp, 10 ^ fp.length)
      else none

/-- Model of Python `float(s)` on the decimal literals the data uses: an
optional sign followed by `pyFloatCore`; malformed strings raise
`ValueError` (modelled as `none`). The value is the exact rational the
decimal literal denotes. -/
def pyFloat (s : String) : Option ℚ :=
  match s.toList with
  | '-' :: cs => (pyFloatCore cs).map (fun p => mkRat (-(p.1 : Int)) p.2)
  | '+' :: cs => (pyFloatCore cs).map (fun p => mkRat ((p.1 : Int)) p.2)
  | cs => (pyFloatCore cs).map (fun p => mkRat ((p.1 : Int)) p.2)

/-- Lines 58-62, 66, 70: `row[k] if row[k] else None` — empty string becomes
NULL, anything else is kept. -/
def strOrNull (s : String) : Option String :=
  if s = "" then none else some s

/-- Line 63: `None if row[expiry] in [minusOne, empty] else row[expiry]`. -/
def coerceExpiry (s : String) : Option String :=
  if s = "-1" ∨ s = "" then none else some s

/-- Lines 64 and 67 (the two expressions are identical up to the field):
`None if s in [minusOne, empty] else float(s) if s else None`.
The trailing `else None` of the source is unreachable (an empty string is
caught by the first test) but is kept for faithfulness. -/
def coerceFloatSentinel (s : String) : Except PyError (Option ℚ) :=
  if s = "-1" ∨ s = "" then .ok none
  else if s ≠ "" then
    match pyFloat s with
    | some q => .ok (some q)
    | none => .error .valueError
  else .ok none

/-- Line 65: `1 if s in [minusOne, empty] else int(s)`. -/
def coerceLotsize (s : String) : Except PyError Int :=
  if s = "-1" ∨ s = "" then .ok 1
  else
    match pyInt s with
    | some n => .ok n
    | none => .error .valueError

/-- The transformed record tuple of lines 57-71, in destination-column order
(symbol, brsymbol, name, exchange, token, expiry, strike, lotsize,
instrumenttype, tick_size, created_at, updated_at, brexchange). -/
structure Rec13 where
  symbol : Option String
  brsymbol : Option String
  name : Option String
  exchange : Option String
  token : Option String
  expiry : Option String
  strike : Option ℚ
  lotsize : Int
  instrumenttype : Option String
  tick_size : Option ℚ
  created_at : String
  updated_at : String
  brexchange : Option String
deriving Repr, DecidableEq

/-- Lines 57-71: build the record tuple for one CSV row. The numeric
coercions are evaluated in tuple order (strike, then lotsize, then
tick_size); the first failing conversion raises and aborts. The two
`datetime.now()` calls consume clock ticks `tick` and `tick + 1`; on success
the advanced tick counter is returned alongside the record. -/
def transformRow (clock : Nat → String) (tick : Nat) (r : Row) :
    Except PyError (Rec13 × Nat) :=
  match coerceFloatSentinel r.strike with
  | .error e => .error e
  | .ok strikeV =>
    match coerceLotsize r.lotsize with
    | .error e => .error e
    | .ok lotV =>
      match coerceFloatSentinel r.tick_size with
      | .error e => .error e
      | .ok tickV =>
        .ok ({ symbol := strOrNull r.symbol
               brsymbol := strOrNull r.brsymbol
               name := strOrNull r.name
               exchange := strOrNull r.exchange
               token := strOrNull r.token
               expiry := coerceExpiry r.expiry
               strike := strikeV
               lotsize := lotV
               instrumenttype := strOrNull r.instrumenttype
               tick_size := tickV
               created_at := clock tick
               updated_at := clock (tick + 1)
               brexchange := strOrNull r.brexchange }, tick + 2)

/-- A row of the `instruments` table: the integer primary key assigned by
the database at insert time, plus the 13 inserted columns. -/
structure DBInstrument where
  id : Nat
  data : Rec13
deriving Repr, DecidableEq

/-- A row of the `instruments_fts` virtual table: rowid plus the two
indexed columns (lines 97-100). -/
structure FtsRow where
  rowid : Nat
  symbol : Option String
  name : Option String
deriving Repr, DecidableEq

/-- A row of `instruments_refresh_log` (lines 108-112). -/
structure LogRow where
  exchange : String
  status : String
  instrument_count : Nat
  refresh_started_at : String
  refresh_completed_at : String
deriving Repr, DecidableEq

/-- The database state: the three tables touched by the script, plus the
next primary-key value the engine will assign in `instruments`. -/
structure DB where
  instruments : List DBInstrument
  fts : List FtsRow
  refreshLog : List LogRow
  nextId : Nat
deriving Repr, DecidableEq

/-- A sqlite connection: the durable committed snapshot and the pending
state the cursor operates on; `conn.commit()` publishes the pending state.
Statements executed on the cursor (and its SELECTs) see `pending`. -/
structure Conn where
  committed : DB
  pending : DB
deriving Repr, DecidableEq

/-- `conn.commit()` (lines 25, 47, 86, 101, 113). -/
def Conn.commitNow (c : Conn) : Conn := ⟨c.pending, c.pending⟩

/-- Line 24: `DELETE FROM instruments`. -/
def Conn.clearInstruments (c : Conn) : Conn :=
  { c with pending := { c.pending with instruments := [] } }

/-- Lines 78-85: `executemany` of the INSERT over the batch, in batch order;
the engine assigns consecutive primary keys from `nextId`. -/
def Conn.insertInstruments (c : Conn) (batch : List Rec13) : Conn :=
  { c with pending :=
    { c.pending with
      instruments := c.pending.instruments ++
        batch.enum.map (fun p => ⟨c.pending.nextId + p.1, p.2⟩)
      nextId := c.pending.nextId + batch.length } }

/-- Lines 96-100: `DELETE FROM instruments_fts` then
`INSERT INTO instruments_fts(rowid, symbol, name) SELECT id, symbol, name
FROM instruments`. -/
def Conn.rebuildFts (c : Conn) : Conn :=
  { c with pending :=
    { c.pending with
      fts := c.pending.instruments.map
        (fun r => ⟨r.id, r.data.symbol, r.data.name⟩) } }

/-- Lines 108-112: append the audit row to `instruments_refresh_log`. -/
def Conn.insertLog (c : Conn) (count : Nat) (t1 t2 : String) : Conn :=
  { c with pending :=
    { c.pending with
      refreshLog := c.pending.refreshLog ++ [⟨"CSV_UPLOAD", "completed", count, t1, t2⟩] } }

/-- The import loop of lines 44-74, over the enumerated data rows.
State: the connection, the local `batch` (`none` = not yet assigned, as in
Python an unassigned local), the `inserted` counter and the clock tick.
At every index divisible by 1000 the loop commits (when `i > 0`), rebinds
`batch` to `[]`, and computes `(i / total_rows) * 100` for the progress
line — a `ZeroDivisionError` when `total_rows` is zero. Each row is
transformed and appended to `batch`; a transform failure propagates and
aborts the loop. The connection reached so far is returned alongside the
outcome. -/
def importLoop (clock : Nat → String) (totalRows : Nat) :
    List (Nat × Row) → Conn → Option (List Rec13) → Nat → Nat →
    Conn × Except PyError (Option (List Rec13) × Nat × Nat)
  | [], conn, batch, inserted, tick => (conn, .ok (batch, inserted, tick))
  | (i, row) :: rest, conn, batch, inserted, tick =>
    let conn := if i % 1000 = 0 ∧ i > 0 then conn.commitNow else conn
    let batch := if i % 1000 = 0 then some [] else batch
    if i % 1000 = 0 ∧ totalRows = 0 then
      (conn, .error .zeroDivision)
    else
      match transformRow clock tick row with
      | .error e => (conn, .error e)
      | .ok (rec, tick') =>
        match batch with
        | none => (conn, .error .unboundLocal)
        | some b =>
          importLoop clock totalRows rest conn (some (b ++ [rec])) (inserted + 1) tick'

/-- The projection of an instrument row that the reporter's SELECT
statements fetch: (symbol, name, exchange, instrumenttype) — lines 120,
128-134 and 142-147 read no other columns. -/
abbrev Proj4 := Option String × Option String × Option String × Option String

/-- Column projection of a transformed record. -/
def recProj (r : Rec13) : Proj4 := (r.symbol, r.name, r.exchange, r.instrumenttype)

/-- Column projection of a stored instrument row. -/
def instrProj (r : DBInstrument) : Proj4 := recProj r.data

/-- A Python format spec such as `:20s` applied to a fetched value: `None`
has no `__format__` accepting a string spec, so it raises `TypeError`;
a string is padded (padding does not matter to any claim, the string is
returned as is). -/
def pyFmtS : Option String → Except PyError String
  | none => .error .typeError
  | some s => .ok s

/-- Lines 121-122: format the sample rows
`{row[0]:20s} {row[1]:40s} {row[2]:10s} {row[3]}` — the fourth column is
printed without a format spec and cannot fail. -/
def fmtSample : List Proj4 → Except PyError Unit
  | [] => .ok ()
  | (s, n, e, _) :: rest => do
    let _ ← pyFmtS s
    let _ ← pyFmtS n
    let _ ← pyFmtS e
    fmtSample rest

/-- `GROUP BY` bookkeeping: bump the count of key `k`, first occurrence
appended at the end. -/
def bumpGroup (k : Option String) : List (Option String × Nat) → List (Option String × Nat)
  | [] => [(k, 1)]
  | (k', n) :: gs => if k' = k then (k', n + 1) :: gs else (k', n) :: bumpGroup k gs

/-- `SELECT key, COUNT(*) ... GROUP BY key` over the projected rows. -/
def groupCounts (key : Proj4 → Option String) (l : List Proj4) :
    List (Option String × Nat) :=
  l.foldl (fun gs p => bumpGroup (key p) gs) []

/-- Insertion step of `ORDER BY count DESC` (stable on equal counts). -/
def insertByCountDesc (p : Option String × Nat) :
    List (Option String × Nat) → List (Option String × Nat)
  | [] => [p]
  | q :: qs => if p.2 ≤ q.2 then q :: insertByCountDesc p qs else p :: q :: qs

/-- `ORDER BY count DESC` over the grouped counts. -/
def sortByCountDesc (l : List (Option String × Nat)) : List (Option String × Nat) :=
  l.foldr insertByCountDesc []

/-- Lines 135-136 and 148-149: format each breakdown line
`{row[0]:20s} {row[1]:>10,}` — the string spec on the group key raises
`TypeError` on a NULL key; the count is an integer and its `,` spec cannot
fail. -/
def fmtGroups : List (Option String × Nat) → Except PyError Unit
  | [] => .ok ()
  | (k, _) :: gs => do
    let _ ← pyFmtS k
    fmtGroups gs

/-- The reporter of lines 117-150, acting on the projected instrument rows:
a 5-row sample (`LIMIT 5`), the by-exchange breakdown (top 10 groups by
descending count, `LIMIT 10`), and the full by-instrumenttype breakdown. -/
def reportPhase (l : List Proj4) : Except PyError Unit := do
  fmtSample (l.take 5)
  fmtGroups ((sortByCountDesc (groupCounts (fun p => p.2.2.1) l)).take 10)
  fmtGroups (sortByCountDesc (groupCounts (fun p => p.2.2.2) l))

/-- Lines 77-113, the pipeline after the import loop, for a bound `batch`:
`if batch:` insert the final batch and commit (77-87); `SELECT COUNT(*)`
into `count` (90-91); clear and rebuild the FTS table, commit (94-101);
append the refresh-log row with two fresh `datetime.now()` timestamps and
commit (107-113). -/
def finalConnOf (clock : Nat → String) (c : Conn) (batch : List Rec13) (tick : Nat) :
    Conn :=
  let conn := if batch.isEmpty then c else (c.insertInstruments batch).commitNow
  let count := conn.pending.instruments.length
  let conn := conn.rebuildFts.commitNow
  (conn.insertLog count (clock tick) (clock (tick + 1))).commitNow

/-- Result of one invocation of `import_instruments()`: the connection as
left behind (its `committed` part is what survives the process) and the
outcome — `.ok ()` when the function returns, `.error e` when exception `e`
propagates out of it. -/
structure RunResult where
  conn : Conn
  outcome : Except PyError Unit
deriving Repr, DecidableEq

/-- `import_instruments()` (lines 12-165) on the parsed CSV data rows
`rows`, starting from database state `db`:
clear `instruments` and commit (24-25); pre-scan the row count (33);
run the import loop (44-74); `if batch:` — an `UnboundLocalError` when the
loop never bound `batch` (77) — then insert and commit the final batch
(78-87); `SELECT COUNT(*)` (90-91); rebuild the FTS table and commit
(96-101); read the FTS count (103-104); append the refresh-log row with two
fresh timestamps and commit (108-113); finally report (117-150). -/
def importInstruments (clock : Nat → String) (rows : List Row) (db : DB) : RunResult :=
  let conn : Conn := ⟨db, db⟩
  let conn := conn.clearInstruments.commitNow
  let totalRows := rows.length
  let loopRes := importLoop clock totalRows rows.enum conn none 0 0
  let conn := loopRes.1
  match loopRes.2 with
  | .error e => ⟨conn, .error e⟩
  | .ok (none, _, _) => ⟨conn, .error .unboundLocal⟩
  | .ok (some batch, _, tick) =>
    let conn := finalConnOf clock conn batch tick
    match reportPhase (conn.pending.instruments.map instrProj) with
    | .error e => ⟨conn, .error e⟩
    | .ok () => ⟨conn, .ok ()⟩

/-- The `__main__` wrapper (lines 167-175): exit code 0 when
`import_instruments()` returns, and on an exception the handler writes the
failure to stderr (second component) and exits with code 1. -/
def pyMain (clock : Nat → String) (rows : List Row) (db : DB) : Nat × Option PyError :=
  match (importInstruments clock rows db).outcome with
  | .ok () => (0, none)
  | .error e => (1, some e)

/-- An empty initial database. -/
def db0 : DB := ⟨[], [], [], 1⟩

/-- A constant wall clock for concrete evaluations. -/
def clockT : Nat → String := fun _ => "T"

/-- The committed database state left behind by one run. -/
def runCommitted (clock : Nat → String) (rows : List Row) (db : DB) : DB :=
  (importInstruments clock rows db).conn.committed

/-- A CSV row has a malformed numeric field when a non-sentinel strike,
lotsize or tick_size string fails its numeric conversion (lines 64, 65,
67) — exactly the rows on which `transformRow` raises `ValueError`. -/
def badNumeric (r : Row) : Prop :=
  (¬(r.strike = "-1" ∨ r.strike = "") ∧ pyFloat r.strike = none)
  ∨ (¬(r.lotsize = "-1" ∨ r.lotsize = "") ∧ pyInt r.lotsize = none)
  ∨ (¬(r.tick_size = "-1" ∨ r.tick_size = "") ∧ pyFloat r.tick_size = none)

instance badNumericDec (r : Row) : Decidable (badNumeric r) := by
  unfold badNumeric; infer_instance

/-- The `inserted` counter carried out of the import loop (0 when the loop
raised). -/
def loopInserted : Except PyError (Option (List Rec13) × Nat × Nat) → Nat
  | .ok (_, n, _) => n
  | .error _ => 0

/-- Two loop `batch` locals with the same reporter-visible projections:
both unbound, or bound to record lists that project identically. -/
def optRel : Option (List Rec13) → Option (List Rec13) → Prop
  | none, none => True
  | some xs, some ys => xs.map recProj = ys.map recProj
  | _, _ => False

/-- Two loop outcomes with the same control flow: identical errors, or
success with projection-equal batches and equal `inserted` counters. -/
def outRel : Except PyError (Option (List Rec13) × Nat × Nat) →
    Except PyError (Option (List Rec13) × Nat × Nat) → Prop
  | .error e, .error f => e = f
  | .ok (b, n, _), .ok (b', n', _) => optRel b b' ∧ n = n'
  | _, _ => False

/-- A well-formed CSV data row: numeric sentinels everywhere, so that it
imports cleanly, with symbol/name/exchange/instrumenttype populated so the
reporter's format specifiers succeed. -/
def rowA : Row := ⟨"1", "A", "", "B", "C", "", "", "", "", "", "D", ""⟩

/-- A 1001-data-row CSV file: one more row than the batch size. -/
def rows1001 : List Row := List.replicate 1001 rowA

/-- The connection state right after lines 24-25 (clear + commit) starting
from the empty database. -/
def conn0 : Conn := (⟨db0, db0⟩ : Conn).clearInstruments.commitNow

/-- A clean row on exchange `e`. -/
def rowEx (e : String) : Row := ⟨"1", "A", "", "B", e, "", "", "", "", "", "D", ""⟩

/-- A 21-row CSV: ten exchanges with two rows each, then a single row whose
exchange is empty (NULL after normalization). Its NULL exchange group has
the strictly smallest count, so `LIMIT 10` drops it from the by-exchange
breakdown, and it is not among the 5 sampled rows. -/
def rowsC10 : List Row :=
  (List.range 10).flatMap
    (fun k => [rowEx (String.append "E" (toString k)), rowEx (String.append "E" (toString k))])
  ++ [rowEx ""]

/-- A single-row CSV whose symbol is empty: it imports cleanly but the
sample formatting at line 122 applies `:20s` to NULL. -/
def rowNullSym : Row := ⟨"1", "", "", "B", "C", "", "", "", "", "", "D", ""⟩

/-- A single-row CSV with a malformed strike field. -/
def rowBadStrike : Row := ⟨"1", "A", "", "B", "C", "", "", "", "abc", "", "D", ""⟩

/-- A clean 3-row CSV with representative sentinel fields: strike `-1`,
lotsize and expiry empty on every row. -/
def rows3 : List Row :=
  [ ⟨"1", "A", "", "B", "C", "", "", "", "-1", "", "D", ""⟩,
    ⟨"2", "A2", "", "B2", "C", "", "", "", "2.5", "75", "D", "0.05"⟩,
    ⟨"3", "A3", "", "B3", "C2", "", "", "", "", "1", "D", ""⟩ ]

/-- A row with sentinel strike `-1`, empty lotsize and a parsable
tick_size. -/
def row6 : Row := ⟨"2", "A", "", "B", "C", "", "", "", "-1", "", "D", "2.5"⟩

/-- A row with a parsable lotsize. -/
def row7 : Row := ⟨"2", "A", "", "B", "C", "", "", "", "-1", "75", "D", ""⟩

/-- Does the 5-row sample of line 120-122 hit a NULL symbol, name or
exchange (the three columns formatted with a string format spec)? -/
def sampleNull (l : List Proj4) : Bool :=
  (l.take 5).any (fun p => p.1.isNone || p.2.1.isNone || p.2.2.1.isNone)

/-- Is a NULL exchange key among the 10 groups the by-exchange breakdown
(lines 128-136, `ORDER BY count DESC LIMIT 10`) actually formats? -/
def exchTopNull (l : List Proj4) : Bool :=
  ((sortByCountDesc (groupCounts (fun p => p.2.2.1) l)).take 10).any
    (fun p => p.1.isNone)

/-- Is a NULL instrumenttype key among the groups of the by-type breakdown
(lines 142-149, no LIMIT)? -/
def typeNull (l : List Proj4) : Bool :=
  (sortByCountDesc (groupCounts (fun p => p.2.2.2) l)).any (fun p => p.1.isNone)

/-! ## Helper lemmas about the field coercions and the row transform -/

theorem coerceFloatSentinel_sentinel (s : String) (h : s = "-1" ∨ s = "") :
    coerceFloatSentinel s = .ok none := by
  unfold coerceFloatSentinel
  simp [h]

theorem coerceFloatSentinel_parse (s : String) (q : ℚ)
    (hs : ¬(s = "-1" ∨ s = "")) (hq : pyFloat s = some q) :
    coerceFloatSentinel s = .ok (some q) := by
  unfold coerceFloatSentinel
  have hne : ¬s = "" := fun h => hs (Or.inr h)
  have hm1 : ¬s = "-1" := fun h => hs (Or.inl h)
  simp [hs, hne, hm1, hq]

theorem coerceFloatSentinel_bad (s : String)
    (hs : ¬(s = "-1" ∨ s = "")) (hq : pyFloat s = none) :
    coerceFloatSentinel s = .error .valueError := by
  unfold coerceFloatSentinel
  have hne : ¬s = "" := fun h => hs (Or.inr h)
  have hm1 : ¬s = "-1" := fun h => hs (Or.inl h)
  simp [hs, hne, hm1, hq]

theorem coerceFloatSentinel_cases (s : String) :
    (∃ v, coerceFloatSentinel s = .ok v)
    ∨ coerceFloatSentinel s = .error .valueError := by
  by_cases hs : s = "-1" ∨ s = ""
  · exact Or.inl ⟨none, coerceFloatSentinel_sentinel s hs⟩
  · cases hq : pyFloat s with
    | none => exact Or.inr (coerceFloatSentinel_bad s hs hq)
    | some q => exact Or.inl ⟨some q, coerceFloatSentinel_parse s q hs hq⟩

theorem coerceLotsize_sentinel (s : String) (h : s = "-1" ∨ s = "") :
    coerceLotsize s = .ok 1 := by
  unfold coerceLotsize
  simp [h]

theorem coerceLotsize_parse (s : String) (n : Int)
    (hs : ¬(s = "-1" ∨ s = "")) (hn : pyInt s = some n) :
    coerceLotsize s = .ok n := by
  unfold coerceLotsize
  simp [hs, hn]

theorem coerceLotsize_bad (s : String)
    (hs : ¬(s = "-1" ∨ s = "")) (hn : pyInt s = none) :
    coerceLotsize s = .error .valueError := by
  unfold coerceLotsize
  simp [hs, hn]

theorem coerceLotsize_cases (s : String) :
    (∃ v, coerceLotsize s = .ok v) ∨ coerceLotsize s = .error .valueError := by
  by_cases hs : s = "-1" ∨ s = ""
  · exact Or.inl ⟨1, coerceLotsize_sentinel s hs⟩
  · cases hn : pyInt s with
    | none => exact Or.inr (coerceLotsize_bad s hs hn)
    | some n => exact Or.inl ⟨n, coerceLotsize_parse s n hs hn⟩

/-- On a successfully transformed row, every stored numeric field is
exactly what its coercion produced. -/
theorem transformRow_ok_fields (clock : Nat → String) (tick : Nat) (r : Row)
    (rec : Rec13) (tick' : Nat)
    (h : transformRow clock tick r = .ok (rec, tick')) :
    coerceFloatSentinel r.strike = .ok rec.strike
    ∧ coerceLotsize r.lotsize = .ok rec.lotsize
    ∧ coerceFloatSentinel r.tick_size = .ok rec.tick_size := by
  unfold transformRow at h
  cases h1 : coerceFloatSentinel r.strike with
  | error e => rw [h1] at h; exact absurd h (by simp)
  | ok sv =>
    rw [h1] at h
    cases h2 : coerceLotsize r.lotsize with
    | error e => rw [h2] at h; exact absurd h (by simp)
    | ok lv =>
      rw [h2] at h
      cases h3 : coerceFloatSentinel r.tick_size with
      | error e => rw [h3] at h; exact absurd h (by simp)
      | ok tv =>
        rw [h3] at h
        simp only [Except.ok.injEq, Prod.mk.injEq] at h
        obtain ⟨hrec, -⟩ := h
        subst hrec
        exact ⟨rfl, rfl, rfl⟩

/-! ## C6 and C7: numeric-field normalization -/

/-- C6: for every input row that is transformed (and hence stored), if the
strike field (respectively the tick_size field) is the literal string `-1`
or the empty string, the stored value is null; for every other numeric
string in that field, the stored value equals its floating-point parse. -/
theorem C6_strike_ticksize_null_or_parse (clock : Nat → String) (tick : Nat)
    (r : Row) (rec : Rec13) (tick' : Nat)
    (h : transformRow clock tick r = .ok (rec, tick')) :
    ((r.strike = "-1" ∨ r.strike = "") → rec.strike = none)
    ∧ ((r.tick_size = "-1" ∨ r.tick_size = "") → rec.tick_size = none)
    ∧ (∀ q, ¬(r.strike = "-1" ∨ r.strike = "") → pyFloat r.strike = some q →
        rec.strike = some q)
    ∧ (∀ q, ¬(r.tick_size = "-1" ∨ r.tick_size = "") → pyFloat r.tick_size = some q →
        rec.tick_size = some q) := by
  obtain ⟨hs, -, ht⟩ := transformRow_ok_fields clock tick r rec tick' h
  refine ⟨?_, ?_, ?_, ?_⟩
  · intro hsent
    rw [coerceFloatSentinel_sentinel _ hsent] at hs
    injection hs with h2
    exact h2.symm
  · intro hsent
    rw [coerceFloatSentinel_sentinel _ hsent] at ht
    injection ht with h2
    exact h2.symm
  · intro q hns hq
    rw [coerceFloatSentinel_parse _ q hns hq] at hs
    injection hs with h2
    exact h2.symm
  · intro q hns hq
    rw [coerceFloatSentinel_parse _ q hns hq] at ht
    injection ht with h2
    exact h2.symm

theorem C6_strike_ticksize_null_or_parse_witness :
    ∃ rec tick', transformRow clockT 0 row6 = .ok (rec, tick')
      ∧ rec.strike = none ∧ rec.tick_size = some (mkRat 5 2) :=
  ⟨_, _, rfl,
    (C6_strike_ticksize_null_or_parse clockT 0 row6 _ _ rfl).1 (Or.inl rfl),
    (C6_strike_ticksize_null_or_parse clockT 0 row6 _ _ rfl).2.2.2 (mkRat 5 2)
      (by decide) (by decide)⟩

/-- C7: for every input row that is transformed (and hence stored), if the
lotsize field is the literal string `-1` or the empty string, the stored
lotsize is the integer 1 (the default, not null); for every other numeric
string, the stored lotsize equals its integer parse. -/
theorem C7_lotsize_default_or_parse (clock : Nat → String) (tick : Nat)
    (r : Row) (rec : Rec13) (tick' : Nat)
    (h : transformRow clock tick r = .ok (rec, tick')) :
    ((r.lotsize = "-1" ∨ r.lotsize = "") → rec.lotsize = 1)
    ∧ (∀ n, ¬(r.lotsize = "-1" ∨ r.lotsize = "") → pyInt r.lotsize = some n →
        rec.lotsize = n) := by
  obtain ⟨-, hl, -⟩ := transformRow_ok_fields clock tick r rec tick' h
  constructor
  · intro hsent
    rw [coerceLotsize_sentinel _ hsent] at hl
    injection hl with h2
    exact h2.symm
  · intro n hns hn
    rw [coerceLotsize_parse _ n hns hn] at hl
    injection hl with h2
    exact h2.symm

theorem C7_lotsize_default_or_parse_witness :
    (∃ rec tick', transformRow clockT 0 row6 = .ok (rec, tick') ∧ rec.lotsize = 1)
    ∧ (∃ rec tick', transformRow clockT 0 row7 = .ok (rec, tick') ∧ rec.lotsize = 75) :=
  ⟨⟨_, _, rfl, (C7_lotsize_default_or_parse clockT 0 row6 _ _ rfl).1 (Or.inr rfl)⟩,
   ⟨_, _, rfl, (C7_lotsize_default_or_parse clockT 0 row7 _ _ rfl).2 75
      (by decide) (by decide)⟩⟩

/-! ## Loop lemmas -/

theorem Conn.commitNow_pending (c : Conn) : c.commitNow.pending = c.pending := rfl

/-- The import loop never changes the pending database state: no statement
inside the loop of lines 44-74 writes to the database, so the per-batch
`conn.commit()` calls publish nothing new. -/
theorem importLoop_pending (clock : Nat → String) (total : Nat) :
    ∀ (l : List (Nat × Row)) (c : Conn) (b : Option (List Rec13)) (n t : Nat),
      (importLoop clock total l c b n t).1.pending = c.pending := by
  intro l
  induction l with
  | nil => intro c b n t; rfl
  | cons hd rest ih =>
    intro c b n t
    obtain ⟨i, row⟩ := hd
    have hcp : (if i % 1000 = 0 ∧ i > 0 then c.commitNow else c).pending = c.pending := by
      split <;> rfl
    simp only [importLoop]
    by_cases h0 : i % 1000 = 0 ∧ total = 0
    · rw [if_pos h0]
      exact hcp
    · rw [if_neg h0]
      cases htr : transformRow clock t row with
      | error e => simp only [htr]; exact hcp
      | ok p =>
        obtain ⟨rec, t2⟩ := p
        simp only [htr]
        by_cases hb : i % 1000 = 0
        · rw [if_pos hb]
          exact (ih _ _ _ _).trans hcp
        · rw [if_neg hb]
          cases b with
          | none => exact hcp
          | some bb => exact (ih _ _ _ _).trans hcp

theorem coerceFloatSentinel_ok (s : String)
    (h : ¬(s = "-1" ∨ s = "") → ¬pyFloat s = none) :
    ∃ v, coerceFloatSentinel s = .ok v := by
  by_cases hs : s = "-1" ∨ s = ""
  · exact ⟨none, coerceFloatSentinel_sentinel s hs⟩
  · cases hq : pyFloat s with
    | none => exact absurd hq (h hs)
    | some q => exact ⟨some q, coerceFloatSentinel_parse s q hs hq⟩

theorem coerceLotsize_ok (s : String)
    (h : ¬(s = "-1" ∨ s = "") → ¬pyInt s = none) :
    ∃ v, coerceLotsize s = .ok v := by
  by_cases hs : s = "-1" ∨ s = ""
  · exact ⟨1, coerceLotsize_sentinel s hs⟩
  · cases hn : pyInt s with
    | none => exact absurd hn (h hs)
    | some n => exact ⟨n, coerceLotsize_parse s n hs hn⟩

/-- The only exception the transform raises is `ValueError` (from a failed
`float`/`int` conversion). -/
theorem transformRow_error_eq (clock : Nat → String) (t : Nat) (r : Row)
    (e : PyError) (h : transformRow clock t r = .error e) : e = .valueError := by
  unfold transformRow at h
  rcases coerceFloatSentinel_cases r.strike with ⟨v, hv⟩ | hv
  · rw [hv] at h
    rcases coerceLotsize_cases r.lotsize with ⟨w, hw⟩ | hw
    · rw [hw] at h
      rcases coerceFloatSentinel_cases r.tick_size with ⟨u, hu⟩ | hu
      · rw [hu] at h; exact absurd h (by simp)
      · rw [hu] at h; injection h with h2; exact h2.symm
    · rw [hw] at h; injection h with h2; exact h2.symm
  · rw [hv] at h; injection h with h2; exact h2.symm

/-- A malformed numeric field makes the transform raise `ValueError`. -/
theorem transformRow_error_of_bad (clock : Nat → String) (t : Nat) (r : Row)
    (h : badNumeric r) : transformRow clock t r = .error .valueError := by
  unfold transformRow
  rcases h with ⟨hns, hq⟩ | ⟨hns, hn⟩ | ⟨hns, hq⟩
  · rw [coerceFloatSentinel_bad _ hns hq]
  · rcases coerceFloatSentinel_cases r.strike with ⟨v, hv⟩ | hv
    · rw [hv, coerceLotsize_bad _ hns hn]
    · rw [hv]
  · rcases coerceFloatSentinel_cases r.strike with ⟨v, hv⟩ | hv
    · rw [hv]
      rcases coerceLotsize_cases r.lotsize with ⟨w, hw⟩ | hw
      · rw [hw, coerceFloatSentinel_bad _ hns hq]
      · rw [hw]
    · rw [hv]

/-- A row with no malformed numeric field transforms successfully. -/
theorem transformRow_ok_of_not_bad (clock : Nat → String) (t : Nat) (r : Row)
    (h : ¬badNumeric r) : ∃ rec, transformRow clock t r = .ok (rec, t + 2) := by
  unfold badNumeric at h
  push_neg at h
  obtain ⟨h1, h2, h3⟩ := h
  obtain ⟨v1, hv1⟩ := coerceFloatSentinel_ok r.strike (fun hor => h1 (not_or.mp hor))
  obtain ⟨v2, hv2⟩ := coerceLotsize_ok r.lotsize (fun hor => h2 (not_or.mp hor))
  obtain ⟨v3, hv3⟩ := coerceFloatSentinel_ok r.tick_size (fun hor => h3 (not_or.mp hor))
  unfold transformRow
  rw [hv1, hv2, hv3]
  exact ⟨_, rfl⟩

/-- If some remaining row has a malformed numeric field, the loop raises. -/
theorem importLoop_error_of_bad (clock : Nat → String) (total : Nat) :
    ∀ (l : List (Nat × Row)) (c : Conn) (b : Option (List Rec13)) (n t : Nat),
      (∃ p ∈ l, badNumeric p.2) →
      ∃ e, (importLoop clock total l c b n t).2 = .error e := by
  intro l
  induction l with
  | nil =>
    intro c b n t h
    rcases h with ⟨p, hp, -⟩
    cases hp
  | cons hd rest ih =>
    intro c b n t h
    obtain ⟨i, row⟩ := hd
    simp only [importLoop]
    by_cases h0 : i % 1000 = 0 ∧ total = 0
    · rw [if_pos h0]; exact ⟨_, rfl⟩
    · rw [if_neg h0]
      by_cases hbad : badNumeric row
      · rw [transformRow_error_of_bad clock t row hbad]
        exact ⟨_, rfl⟩
      · rcases h with ⟨p, hp, hpbad⟩
        rcases List.mem_cons.mp hp with heq | hmem
        · rw [heq] at hpbad
          exact absurd hpbad hbad
        · obtain ⟨rec, hrec⟩ := transformRow_ok_of_not_bad clock t row hbad
          simp only [hrec]
          by_cases hb : i % 1000 = 0
          · rw [if_pos hb]; exact ih _ _ _ _ ⟨p, hmem, hpbad⟩
          · rw [if_neg hb]
            cases b with
            | none => exact ⟨_, rfl⟩
            | some bb => exact ih _ _ _ _ ⟨p, hmem, hpbad⟩

/-- The loop's own exceptions: a conversion `ValueError`, the
`UnboundLocalError` on `batch`, or the progress `ZeroDivisionError` — never
a `TypeError`. -/
theorem importLoop_error_kinds (clock : Nat → String) (total : Nat) :
    ∀ (l : List (Nat × Row)) (c : Conn) (b : Option (List Rec13)) (n t : Nat)
      (e : PyError), (importLoop clock total l c b n t).2 = .error e →
      e = .valueError ∨ e = .unboundLocal ∨ e = .zeroDivision := by
  intro l
  induction l with
  | nil =>
    intro c b n t e h
    exact absurd h (by simp [importLoop])
  | cons hd rest ih =>
    intro c b n t e h
    obtain ⟨i, row⟩ := hd
    simp only [importLoop] at h
    by_cases h0 : i % 1000 = 0 ∧ total = 0
    · rw [if_pos h0] at h
      injection h with h2
      exact Or.inr (Or.inr h2.symm)
    · rw [if_neg h0] at h
      cases htr : transformRow clock t row with
      | error e2 =>
        rw [htr] at h
        injection h with h2
        rw [← h2]
        exact Or.inl (transformRow_error_eq clock t row e2 htr)
      | ok p =>
        obtain ⟨rec, t2⟩ := p
        rw [htr] at h
        by_cases hb : i % 1000 = 0
        · rw [if_pos hb] at h
          exact ih _ _ _ _ _ h
        · rw [if_neg hb] at h
          cases b with
          | none =>
            injection h with h2
            exact Or.inr (Or.inl h2.symm)
          | some bb => exact ih _ _ _ _ _ h

/-- Every member of a list appears in its enumeration. -/
theorem exists_enumFrom_of_mem {α : Type} {r : α} :
    ∀ (l : List α) (k : Nat), r ∈ l → ∃ i, (i, r) ∈ l.enumFrom k := by
  intro l
  induction l with
  | nil => intro k h; cases h
  | cons hd rest ih =>
    intro k h
    rcases List.mem_cons.mp h with heq | hmem
    · exact ⟨k, by rw [heq]; simp [List.enumFrom]⟩
    · obtain ⟨i, hi⟩ := ih (k + 1) hmem
      exact ⟨i, by simp [List.enumFrom, hi]⟩

/-! ## Shape of the post-loop pipeline and of a successful run -/

/-- The post-loop pipeline ends in a commit, so its committed and pending
states agree. -/
theorem finalConnOf_committed (clock : Nat → String) (c : Conn)
    (b : List Rec13) (t : Nat) :
    (finalConnOf clock c b t).committed = (finalConnOf clock c b t).pending := rfl

theorem finalConnOf_instruments (clock : Nat → String) (c : Conn)
    (b : List Rec13) (t : Nat) :
    (finalConnOf clock c b t).pending.instruments =
      c.pending.instruments ++
        b.enum.map (fun p => ⟨c.pending.nextId + p.1, p.2⟩) := by
  unfold finalConnOf
  by_cases hb : b.isEmpty
  · rw [List.isEmpty_iff] at hb
    subst hb
    simp [Conn.rebuildFts, Conn.insertLog, Conn.commitNow]
  · simp [hb, Conn.insertInstruments, Conn.rebuildFts, Conn.insertLog, Conn.commitNow]

theorem finalConnOf_fts (clock : Nat → String) (c : Conn)
    (b : List Rec13) (t : Nat) :
    (finalConnOf clock c b t).pending.fts =
      (finalConnOf clock c b t).pending.instruments.map
        (fun r => ⟨r.id, r.data.symbol, r.data.name⟩) := by
  unfold finalConnOf
  by_cases hb : b.isEmpty <;>
    simp [hb, Conn.insertInstruments, Conn.rebuildFts, Conn.insertLog, Conn.commitNow]

theorem finalConnOf_log (clock : Nat → String) (c : Conn)
    (b : List Rec13) (t : Nat) :
    (finalConnOf clock c b t).pending.refreshLog =
      c.pending.refreshLog ++
        [⟨"CSV_UPLOAD", "completed",
          (finalConnOf clock c b t).pending.instruments.length,
          clock t, clock (t + 1)⟩] := by
  unfold finalConnOf
  by_cases hb : b.isEmpty <;>
    simp [hb, Conn.insertInstruments, Conn.rebuildFts, Conn.insertLog, Conn.commitNow]

/-- A successful run passed through a successful loop with a bound batch,
ended in the post-loop pipeline state, and its reporter succeeded. -/
theorem importInstruments_ok_shape (clock : Nat → String) (rows : List Row) (db : DB)
    (h : (importInstruments clock rows db).outcome = .ok ()) :
    ∃ c1 batch n tick,
      importLoop clock rows.length rows.enum
          ((⟨db, db⟩ : Conn).clearInstruments.commitNow) none 0 0
        = (c1, .ok (some batch, n, tick))
      ∧ importInstruments clock rows db = ⟨finalConnOf clock c1 batch tick, .ok ()⟩
      ∧ reportPhase ((finalConnOf clock c1 batch tick).pending.instruments.map instrProj)
        = .ok () := by
  simp only [importInstruments] at h ⊢
  rcases hlp : importLoop clock rows.length rows.enum
      ((⟨db, db⟩ : Conn).clearInstruments.commitNow) none 0 0 with ⟨c1, out⟩
  rw [hlp] at h
  dsimp only at h ⊢
  cases out with
  | error e => simp at h
  | ok p =>
    obtain ⟨ob, n, tick⟩ := p
    cases ob with
    | none => simp at h
    | some batch =>
      dsimp only at h ⊢
      cases hr : reportPhase ((finalConnOf clock c1 batch tick).pending.instruments.map instrProj) with
      | error e => rw [hr] at h; simp at h
      | ok u =>
        cases u
        exact ⟨c1, batch, n, tick, rfl, rfl, hr⟩

/-- When the loop raises, `import_instruments` propagates exactly that
exception. -/
theorem importInstruments_outcome_of_loop_error (clock : Nat → String)
    (rows : List Row) (db : DB) (e : PyError)
    (h : (importLoop clock rows.length rows.enum
        ((⟨db, db⟩ : Conn).clearInstruments.commitNow) none 0 0).2 = .error e) :
    (importInstruments clock rows db).outcome = .error e := by
  simp only [importInstruments]
  rcases hlp : importLoop clock rows.length rows.enum
      ((⟨db, db⟩ : Conn).clearInstruments.commitNow) none 0 0 with ⟨c1, out⟩
  rw [hlp] at h
  dsimp only at h ⊢
  subst h
  rfl

/-! ## C9: empty CSV (header only) -/

/-- C9: on a CSV with zero data rows the loop never binds `batch`, so
`if batch:` at line 77 raises `UnboundLocalError`; the process exits with
status 1, and by then the `instruments` table has been cleared and the
clearing committed (lines 24-25). -/
theorem C9_empty_csv_unbound_local (clock : Nat → String) (db : DB) :
    (importInstruments clock [] db).outcome = .error .unboundLocal
    ∧ (importInstruments clock [] db).conn.committed.instruments = []
    ∧ pyMain clock [] db = (1, some .unboundLocal) := ⟨rfl, rfl, rfl⟩

/-! ## C4: search-index consistency -/

/-- C4: after a successful run the FTS table is exactly the
(id, symbol, name) projection of the instruments table — rebuilt from the
final table contents after the batch insert, so the row counts agree and
the same row identifiers appear in both. -/
theorem C4_fts_consistency (clock : Nat → String) (rows : List Row) (db : DB)
    (h : (importInstruments clock rows db).outcome = .ok ()) :
    (runCommitted clock rows db).fts =
      (runCommitted clock rows db).instruments.map
        (fun r => ⟨r.id, r.data.symbol, r.data.name⟩)
    ∧ (runCommitted clock rows db).fts.length =
        (runCommitted clock rows db).instruments.length
    ∧ ∀ i, i ∈ (runCommitted clock rows db).fts.map FtsRow.rowid ↔
        i ∈ (runCommitted clock rows db).instruments.map DBInstrument.id := by
  obtain ⟨c1, batch, n, tick, hlp, heq, hrep⟩ := importInstruments_ok_shape clock rows db h
  unfold runCommitted
  rw [heq]
  dsimp only
  rw [finalConnOf_committed, finalConnOf_fts]
  refine ⟨rfl, by simp, ?_⟩
  intro i
  simp [List.mem_map]

theorem C4_fts_consistency_witness :
    (runCommitted clockT rows3 db0).fts =
      (runCommitted clockT rows3 db0).instruments.map
        (fun r => ⟨r.id, r.data.symbol, r.data.name⟩)
    ∧ (runCommitted clockT rows3 db0).fts.length =
        (runCommitted clockT rows3 db0).instruments.length :=
  ⟨(C4_fts_consistency clockT rows3 db0 (by decide)).1,
   (C4_fts_consistency clockT rows3 db0 (by decide)).2.1⟩

/-! ## C5: audit log -/

/-- C5: a successful run appends exactly one row to
`instruments_refresh_log` — exchange tag CSV_UPLOAD, status completed,
`instrument_count` equal to the final instruments row count, and two
timestamps — leaving the existing log rows untouched. -/
theorem C5_refresh_log (clock : Nat → String) (rows : List Row) (db : DB)
    (h : (importInstruments clock rows db).outcome = .ok ()) :
    ∃ t1 t2, (runCommitted clock rows db).refreshLog =
      db.refreshLog ++
        [⟨"CSV_UPLOAD", "completed",
          (runCommitted clock rows db).instruments.length, t1, t2⟩] := by
  obtain ⟨c1, batch, n, tick, hlp, heq, hrep⟩ := importInstruments_ok_shape clock rows db h
  refine ⟨clock tick, clock (tick + 1), ?_⟩
  unfold runCommitted
  rw [heq]
  dsimp only
  rw [finalConnOf_committed, finalConnOf_log]
  have hp : c1.pending = ((⟨db, db⟩ : Conn).clearInstruments.commitNow).pending := by
    have hgen := importLoop_pending clock rows.length rows.enum
      ((⟨db, db⟩ : Conn).clearInstruments.commitNow) none 0 0
    rw [hlp] at hgen
    exact hgen
  rw [hp]
  rfl

theorem C5_refresh_log_witness :
    ∃ t1 t2, (runCommitted clockT rows3 db0).refreshLog =
      db0.refreshLog ++
        [⟨"CSV_UPLOAD", "completed",
          (runCommitted clockT rows3 db0).instruments.length, t1, t2⟩] :=
  C5_refresh_log clockT rows3 db0 (by decide)

/-! ## C8: exit codes and conversion failures -/

/-- With a nonzero pre-scanned total and a batch that is bound (or about to
be bound at a boundary index), a malformed numeric field in any remaining
row makes the loop raise exactly `ValueError`. -/
theorem importLoop_valueError_of_bad (clock : Nat → String) (total : Nat) :
    ∀ (l : List (Nat × Row)) (c : Conn) (b : Option (List Rec13)) (n t : Nat),
      total ≠ 0 →
      (b ≠ none ∨ ∀ i r rest, l = (i, r) :: rest → i % 1000 = 0) →
      (∃ p ∈ l, badNumeric p.2) →
      (importLoop clock total l c b n t).2 = .error .valueError := by
  intro l
  induction l with
  | nil =>
    intro c b n t htot hb h
    rcases h with ⟨p, hp, -⟩
    cases hp
  | cons hd rest ih =>
    intro c b n t htot hb h
    obtain ⟨i, row⟩ := hd
    simp only [importLoop]
    have h0 : ¬(i % 1000 = 0 ∧ total = 0) := fun h2 => htot h2.2
    rw [if_neg h0]
    by_cases hbad : badNumeric row
    · rw [transformRow_error_of_bad clock t row hbad]
    · rcases h with ⟨p, hp, hpbad⟩
      rcases List.mem_cons.mp hp with heq | hmem
      · rw [heq] at hpbad
        exact absurd hpbad hbad
      · obtain ⟨rec, hrec⟩ := transformRow_ok_of_not_bad clock t row hbad
        simp only [hrec]
        by_cases hbnd : i % 1000 = 0
        · rw [if_pos hbnd]
          exact ih _ _ _ _ htot (Or.inl (by simp)) ⟨p, hmem, hpbad⟩
        · rw [if_neg hbnd]
          cases b with
          | none =>
            rcases hb with hb | hb
            · exact absurd rfl hb
            · exact absurd (hb i row rest rfl) hbnd
          | some bb => exact ih _ _ _ _ htot (Or.inl (by simp)) ⟨p, hmem, hpbad⟩

/-- C8: the process exits with status 0 when the import completes and with
status 1 on any uncaught failure, reporting the exception on the error
stream; in particular a malformed numeric string in strike, lotsize or
tick_size raises a conversion `ValueError` that aborts the whole run (no
per-row recovery) and exits with status 1. -/
theorem C8_exit_codes (clock : Nat → String) (rows : List Row) (db : DB) :
    ((importInstruments clock rows db).outcome = .ok () →
      pyMain clock rows db = (0, none))
    ∧ (∀ e, (importInstruments clock rows db).outcome = .error e →
      pyMain clock rows db = (1, some e))
    ∧ ((∃ r ∈ rows, badNumeric r) →
      pyMain clock rows db = (1, some .valueError)) := by
  refine ⟨?_, ?_, ?_⟩
  · intro h
    unfold pyMain
    rw [h]
  · intro e h
    unfold pyMain
    rw [h]
  · intro hbad
    have hrows : rows ≠ [] := by
      rcases hbad with ⟨r, hr, -⟩
      intro hnil
      rw [hnil] at hr
      cases hr
    have htot : rows.length ≠ 0 := fun h2 => hrows (List.length_eq_zero.mp h2)
    have hfirst : ∀ i r rest, rows.enum = (i, r) :: rest → i % 1000 = 0 := by
      intro i r rest hE
      cases rows with
      | nil => simp [List.enum] at hE
      | cons hd tl =>
        simp only [List.enum, List.enumFrom] at hE
        rw [List.cons.injEq] at hE
        have := hE.1
        rw [Prod.mk.injEq] at this
        omega
    have hmem : ∃ p ∈ rows.enum, badNumeric p.2 := by
      rcases hbad with ⟨r, hr, hrbad⟩
      obtain ⟨i, hi⟩ := exists_enumFrom_of_mem rows 0 hr
      exact ⟨(i, r), hi, hrbad⟩
    have hloop := importLoop_valueError_of_bad clock rows.length rows.enum
      ((⟨db, db⟩ : Conn).clearInstruments.commitNow) none 0 0 htot (Or.inr hfirst) hmem
    have hout := importInstruments_outcome_of_loop_error clock rows db .valueError hloop
    unfold pyMain
    rw [hout]

theorem C8_exit_codes_witness :
    pyMain clockT rows3 db0 = (0, none)
    ∧ pyMain clockT [rowBadStrike] db0 = (1, some .valueError) :=
  ⟨(C8_exit_codes clockT rows3 db0).1 (by decide),
   (C8_exit_codes clockT [rowBadStrike] db0).2.2
     ⟨rowBadStrike, by simp, by decide⟩⟩

/-! ## C1 and C2: the batch insert -/

set_option maxRecDepth 100000

/-- C1 (divergence witness): on a 1001-data-row CSV the run completes with
exit status 0, yet the instruments table holds 1 row, not 1001 — the loop
of lines 44-74 accumulates each batch but never executes an INSERT, so the
rows collected before the last batch boundary are discarded when line 50
rebinds `batch`; only the final batch (line 85) is ever inserted. -/
theorem C1_count_after_run : pyMain clockT rows1001 db0 = (0, none)
    ∧ rows1001.length = 1001
    ∧ (runCommitted clockT rows1001 db0).instruments.length = 1 := by
  exact ⟨by decide, by decide, by decide⟩

/-- C2 (divergence witness): no statement inside the import loop writes to
the database — the pending state is untouched by the whole loop, so the
per-batch `conn.commit()` calls publish nothing. Concretely, on the
1001-row input the loop processes 1001 rows and crosses the i = 1000 batch
boundary (committing there), yet both the committed and the pending
instruments tables are still empty when the loop ends. -/
theorem C2_loop_never_inserts :
    (∀ (clock : Nat → String) (total : Nat) (l : List (Nat × Row)) (c : Conn)
        (b : Option (List Rec13)) (n t : Nat),
      (importLoop clock total l c b n t).1.pending = c.pending)
    ∧ loopInserted (importLoop clockT 1001 rows1001.enum conn0 none 0 0).2 = 1001
    ∧ (importLoop clockT 1001 rows1001.enum conn0 none 0 0).1.committed.instruments = []
    ∧ (importLoop clockT 1001 rows1001.enum conn0 none 0 0).1.pending.instruments = [] := by
  exact ⟨importLoop_pending, by decide, by decide, by decide⟩

/-! ## C10: the reporter on NULL values -/

theorem except_bind_ok {ε α β : Type} (a : α) (f : α → Except ε β) :
    (Except.ok a >>= f) = f a := rfl

theorem except_bind_error {ε α β : Type} (e : ε) (f : α → Except ε β) :
    ((Except.error e : Except ε α) >>= f) = Except.error e := rfl

theorem fmtSample_eq : ∀ l : List Proj4,
    fmtSample l =
      (if l.any (fun p => p.1.isNone || p.2.1.isNone || p.2.2.1.isNone)
       then .error .typeError else .ok ()) := by
  intro l
  induction l with
  | nil => rfl
  | cons p rest ih =>
    obtain ⟨s, n, e, t⟩ := p
    cases s with
    | none => simp [fmtSample, pyFmtS, except_bind_ok, except_bind_error]
    | some a =>
      cases n with
      | none => simp [fmtSample, pyFmtS, except_bind_ok, except_bind_error]
      | some b =>
        cases e with
        | none => simp [fmtSample, pyFmtS, except_bind_ok, except_bind_error]
        | some cc =>
          simp only [fmtSample, pyFmtS, List.any_cons, Option.isNone_some,
            Bool.false_or, Option.isNone_none, except_bind_ok]
          exact ih

theorem fmtGroups_eq : ∀ g : List (Option String × Nat),
    fmtGroups g = (if g.any (fun p => p.1.isNone) then .error .typeError else .ok ()) := by
  intro g
  induction g with
  | nil => rfl
  | cons p rest ih =>
    obtain ⟨k, m⟩ := p
    cases k with
    | none => simp [fmtGroups, pyFmtS, except_bind_ok, except_bind_error]
    | some a =>
      simp only [fmtGroups, pyFmtS, List.any_cons, Option.isNone_some, Bool.false_or,
        except_bind_ok]
      exact ih

/-- The reporter fails — always with `TypeError` — exactly when a NULL hits
one of its string format specs: in the 5-row sample, in the top-10
by-exchange breakdown, or in the by-type breakdown. -/
theorem reportPhase_eq (l : List Proj4) :
    reportPhase l =
      (if sampleNull l || exchTopNull l || typeNull l
       then .error .typeError else .ok ()) := by
  unfold reportPhase sampleNull exchTopNull typeNull
  rw [fmtSample_eq, fmtGroups_eq, fmtGroups_eq]
  by_cases h1 : (l.take 5).any (fun p => p.1.isNone || p.2.1.isNone || p.2.2.1.isNone)
  · simp [h1, except_bind_error]
  · simp only [h1, if_false, Bool.false_or]
    by_cases h2 : ((sortByCountDesc (groupCounts (fun p => p.2.2.1) l)).take 10).any
        (fun p => p.1.isNone)
    · simp [h2, except_bind_ok, except_bind_error]
    · simp only [h2, if_false, Bool.false_or]
      by_cases h3 : (sortByCountDesc (groupCounts (fun p => p.2.2.2) l)).any
          (fun p => p.1.isNone)
      · simp [h3, except_bind_ok, except_bind_error]
      · simp [h3, except_bind_ok, except_bind_error]

/-- When the loop succeeds without binding `batch`, the run raises
`UnboundLocalError` at line 77. -/
theorem importInstruments_outcome_of_loop_none (clock : Nat → String)
    (rows : List Row) (db : DB) (c1 : Conn) (n tick : Nat)
    (h : importLoop clock rows.length rows.enum
        ((⟨db, db⟩ : Conn).clearInstruments.commitNow) none 0 0
      = (c1, .ok (none, n, tick))) :
    (importInstruments clock rows db).outcome = .error .unboundLocal := by
  simp only [importInstruments]
  rw [h]

/-- When the loop succeeds with a bound batch, the run's result is the
post-loop pipeline state together with the reporter's outcome. -/
theorem importInstruments_eq_of_loop_some (clock : Nat → String)
    (rows : List Row) (db : DB) (c1 : Conn) (batch : List Rec13) (n tick : Nat)
    (h : importLoop clock rows.length rows.enum
        ((⟨db, db⟩ : Conn).clearInstruments.commitNow) none 0 0
      = (c1, .ok (some batch, n, tick))) :
    importInstruments clock rows db =
      ⟨finalConnOf clock c1 batch tick,
       reportPhase ((finalConnOf clock c1 batch tick).pending.instruments.map instrProj)⟩ := by
  simp only [importInstruments]
  rw [h]
  dsimp only
  cases hr : reportPhase ((finalConnOf clock c1 batch tick).pending.instruments.map instrProj) with
  | error e => rfl
  | ok u => cases u; rfl

/-- C10 (amended): if the run gets past the import (it raises none of the
import-phase exceptions), then — whenever one of the first five instruments
has a NULL symbol, name or exchange, or a NULL exchange key is among the 10
groups the top-10 by-exchange breakdown actually formats, or any
instrumenttype group key is NULL — the reporter's fixed-width format spec
raises `TypeError` and the process exits with status 1, even though the
data was already imported and the audit log already records a completed
run. -/
theorem C10_reporter_typeerror (clock : Nat → String) (rows : List Row) (db : DB)
    (h1 : ¬(importInstruments clock rows db).outcome = .error .valueError)
    (h2 : ¬(importInstruments clock rows db).outcome = .error .unboundLocal)
    (h3 : ¬(importInstruments clock rows db).outcome = .error .zeroDivision)
    (hnull : (sampleNull ((runCommitted clock rows db).instruments.map instrProj)
      || exchTopNull ((runCommitted clock rows db).instruments.map instrProj)
      || typeNull ((runCommitted clock rows db).instruments.map instrProj)) = true) :
    (importInstruments clock rows db).outcome = .error .typeError
    ∧ pyMain clock rows db = (1, some .typeError)
    ∧ (runCommitted clock rows db).refreshLog.length = db.refreshLog.length + 1
    ∧ ((runCommitted clock rows db).refreshLog.getLast?).map LogRow.status
        = some "completed" := by
  rcases hlp : importLoop clock rows.length rows.enum
      ((⟨db, db⟩ : Conn).clearInstruments.commitNow) none 0 0 with ⟨c1, out⟩
  cases out with
  | error e =>
    have hout := importInstruments_outcome_of_loop_error clock rows db e (by rw [hlp])
    rcases importLoop_error_kinds clock rows.length rows.enum
        ((⟨db, db⟩ : Conn).clearInstruments.commitNow) none 0 0 e (by rw [hlp])
      with hk | hk | hk
    · rw [hk] at hout; exact absurd hout h1
    · rw [hk] at hout; exact absurd hout h2
    · rw [hk] at hout; exact absurd hout h3
  | ok p =>
    obtain ⟨ob, n, tick⟩ := p
    cases ob with
    | none =>
      have hout := importInstruments_outcome_of_loop_none clock rows db c1 n tick hlp
      exact absurd hout h2
    | some batch =>
      have heq := importInstruments_eq_of_loop_some clock rows db c1 batch n tick hlp
      unfold runCommitted at hnull ⊢
      rw [heq] at hnull ⊢
      dsimp only at hnull ⊢
      rw [finalConnOf_committed] at hnull ⊢
      have hrep : reportPhase ((finalConnOf clock c1 batch tick).pending.instruments.map instrProj)
          = .error .typeError := by
        rw [reportPhase_eq, hnull]
        rfl
      refine ⟨?_, ?_, ?_, ?_⟩
      · exact hrep
      · unfold pyMain
        rw [heq]
        dsimp only
        rw [hrep]
      · rw [finalConnOf_log]
        have hp : c1.pending = ((⟨db, db⟩ : Conn).clearInstruments.commitNow).pending := by
          have hgen := importLoop_pending clock rows.length rows.enum
            ((⟨db, db⟩ : Conn).clearInstruments.commitNow) none 0 0
          rw [hlp] at hgen
          exact hgen
        rw [hp]
        simp [Conn.clearInstruments, Conn.commitNow]
      · rw [finalConnOf_log]
        simp

theorem C10_reporter_typeerror_witness :
    (importInstruments clockT [rowNullSym] db0).outcome = .error .typeError
    ∧ pyMain clockT [rowNullSym] db0 = (1, some .typeError)
    ∧ (runCommitted clockT [rowNullSym] db0).refreshLog.length = db0.refreshLog.length + 1
    ∧ ((runCommitted clockT [rowNullSym] db0).refreshLog.getLast?).map LogRow.status
        = some "completed" :=
  C10_reporter_typeerror clockT [rowNullSym] db0 (by decide) (by decide) (by decide) (by decide)

/-- C10 (counterexample to the claim as stated): on a 21-row CSV with a
NULL-exchange row whose group falls outside the top 10 by count (and does
not appear among the first 5 sampled rows), the by-exchange `GROUP BY` has
a NULL key, yet no `TypeError` is raised: the process exits with status 0.
The `LIMIT 10` in lines 128-134 means a NULL exchange group key does not
necessarily get formatted. -/
theorem C10_counterexample :
    pyMain clockT rowsC10 db0 = (0, none)
    ∧ none ∈ (groupCounts (fun p => p.2.2.1)
        ((runCommitted clockT rowsC10 db0).instruments.map instrProj)).map Prod.fst := by
  exact ⟨by decide, by decide⟩

/-! ## C3: re-running the import -/

/-- The transform's control flow and its reporter-visible projection do not
depend on the wall clock: on the same row two transforms fail identically
or succeed with projection-equal records. -/
theorem transformRow_rel (clock clock' : Nat → String) (t t' : Nat) (r : Row) :
    (∃ e, transformRow clock t r = .error e ∧ transformRow clock' t' r = .error e)
    ∨ (∃ rec rec', transformRow clock t r = .ok (rec, t + 2)
        ∧ transformRow clock' t' r = .ok (rec', t' + 2)
        ∧ recProj rec = recProj rec') := by
  unfold transformRow
  rcases coerceFloatSentinel_cases r.strike with ⟨v1, hv1⟩ | hv1
  · rw [hv1]
    rcases coerceLotsize_cases r.lotsize with ⟨v2, hv2⟩ | hv2
    · rw [hv2]
      rcases coerceFloatSentinel_cases r.tick_size with ⟨v3, hv3⟩ | hv3
      · rw [hv3]
        right
        exact ⟨_, _, rfl, rfl, rfl⟩
      · rw [hv3]
        left
        exact ⟨_, rfl, rfl⟩
    · rw [hv2]
      left
      exact ⟨_, rfl, rfl⟩
  · rw [hv1]
    left
    exact ⟨_, rfl, rfl⟩

/-- Two runs of the loop over the same enumerated rows, with
projection-related batches, stay related: same error or same `inserted`
count with projection-equal batches — whatever the connection states and
clocks. -/
theorem importLoop_rel (clock clock' : Nat → String) (total : Nat) :
    ∀ (l : List (Nat × Row)) (c c' : Conn) (b b' : Option (List Rec13)) (n t t' : Nat),
      optRel b b' →
      outRel (importLoop clock total l c b n t).2 (importLoop clock' total l c' b' n t').2 := by
  intro l
  induction l with
  | nil =>
    intro c c' b b' n t t' hb
    exact ⟨hb, rfl⟩
  | cons hd rest ih =>
    intro c c' b b' n t t' hb
    obtain ⟨i, row⟩ := hd
    simp only [importLoop]
    by_cases h0 : i % 1000 = 0 ∧ total = 0
    · rw [if_pos h0, if_pos h0]
      exact rfl
    · rw [if_neg h0, if_neg h0]
      rcases transformRow_rel clock clock' t t' row with ⟨e, he, he'⟩ | ⟨rec, rec', hr, hr', hproj⟩
      · rw [he, he']
        exact rfl
      · rw [hr, hr']
        by_cases hbnd : i % 1000 = 0
        · rw [if_pos hbnd, if_pos hbnd]
          exact ih _ _ _ _ _ _ _ (by simp [optRel, hproj])
        · rw [if_neg hbnd, if_neg hbnd]
          cases b with
          | none =>
            cases b' with
            | none => exact rfl
            | some bb' => exact absurd hb (by simp [optRel])
          | some bb =>
            cases b' with
            | none => exact absurd hb (by simp [optRel])
            | some bb' =>
              simp only [optRel] at hb
              exact ih _ _ _ _ _ _ _ (by simp [optRel, hb, hproj])

/-- Reporter-visible projection of the post-loop instruments table: the
projections already present plus those of the batch, in order. -/
theorem finalConnOf_proj (clock : Nat → String) (c : Conn) (b : List Rec13) (t : Nat) :
    (finalConnOf clock c b t).pending.instruments.map instrProj
      = c.pending.instruments.map instrProj ++ b.map recProj := by
  rw [finalConnOf_instruments, List.map_append]
  congr 1
  rw [List.map_map]
  have hfun : (instrProj ∘ fun p : Nat × Rec13 =>
      (⟨c.pending.nextId + p.1, p.2⟩ : DBInstrument)) = (recProj ∘ Prod.snd) := rfl
  rw [hfun, ← List.map_map, List.enum_map_snd]

/-- C3: re-running the import on the same unchanged CSV, starting from the
state the first successful run left behind, succeeds again, yields the same
destination row count (and the same reporter-visible rows — full replace,
no accumulation of duplicates), and appends exactly one more audit-log
row. -/
theorem C3_rerun_same_count (clock clock' : Nat → String) (rows : List Row) (db : DB)
    (h : (importInstruments clock rows db).outcome = .ok ()) :
    (importInstruments clock' rows (runCommitted clock rows db)).outcome = .ok ()
    ∧ (runCommitted clock' rows (runCommitted clock rows db)).instruments.length
        = (runCommitted clock rows db).instruments.length
    ∧ (runCommitted clock' rows (runCommitted clock rows db)).instruments.map instrProj
        = (runCommitted clock rows db).instruments.map instrProj
    ∧ (runCommitted clock' rows (runCommitted clock rows db)).refreshLog.length
        = (runCommitted clock rows db).refreshLog.length + 1 := by
  obtain ⟨c1, batch, n, tick, hlp1, heq1, hrep1⟩ := importInstruments_ok_shape clock rows db h
  have hD1pend : runCommitted clock rows db = (finalConnOf clock c1 batch tick).pending := by
    show (importInstruments clock rows db).conn.committed = _
    rw [heq1]
    exact finalConnOf_committed clock c1 batch tick
  have hc1pend : c1.pending = ((⟨db, db⟩ : Conn).clearInstruments.commitNow).pending := by
    have hgen := importLoop_pending clock rows.length rows.enum
      ((⟨db, db⟩ : Conn).clearInstruments.commitNow) none 0 0
    rw [hlp1] at hgen
    exact hgen
  have hl1 : (finalConnOf clock c1 batch tick).pending.instruments.map instrProj
      = batch.map recProj := by
    rw [finalConnOf_proj, hc1pend]
    simp [Conn.clearInstruments, Conn.commitNow]
  rcases hlp2 : importLoop clock' rows.length rows.enum
      ((⟨runCommitted clock rows db, runCommitted clock rows db⟩ : Conn).clearInstruments.commitNow)
      none 0 0 with ⟨c2, out2⟩
  have hrel := importLoop_rel clock clock' rows.length rows.enum
    ((⟨db, db⟩ : Conn).clearInstruments.commitNow)
    ((⟨runCommitted clock rows db, runCommitted clock rows db⟩ : Conn).clearInstruments.commitNow)
    none none 0 0 0 trivial
  rw [hlp1, hlp2] at hrel
  cases out2 with
  | error e => exact absurd hrel (by simp [outRel])
  | ok p2 =>
    obtain ⟨ob2, n2, t2⟩ := p2
    cases ob2 with
    | none => exact absurd hrel (by simp [outRel, optRel])
    | some batch2 =>
      simp only [outRel, optRel] at hrel
      obtain ⟨hbmap, -⟩ := hrel
      have heq2 := importInstruments_eq_of_loop_some clock' rows
        (runCommitted clock rows db) c2 batch2 n2 t2 hlp2
      have hc2pend : c2.pending =
          ((⟨runCommitted clock rows db, runCommitted clock rows db⟩ : Conn).clearInstruments.commitNow).pending := by
        have hgen := importLoop_pending clock' rows.length rows.enum
          ((⟨runCommitted clock rows db, runCommitted clock rows db⟩ : Conn).clearInstruments.commitNow)
          none 0 0
        rw [hlp2] at hgen
        exact hgen
      have hl2 : (finalConnOf clock' c2 batch2 t2).pending.instruments.map instrProj
          = batch2.map recProj := by
        rw [finalConnOf_proj, hc2pend]
        simp [Conn.clearInstruments, Conn.commitNow]
      have hrep2 : reportPhase ((finalConnOf clock' c2 batch2 t2).pending.instruments.map instrProj)
          = .ok () := by
        rw [hl2, ← hbmap, ← hl1]
        exact hrep1
      have hD2pend : runCommitted clock' rows (runCommitted clock rows db)
          = (finalConnOf clock' c2 batch2 t2).pending := by
        show (importInstruments clock' rows (runCommitted clock rows db)).conn.committed = _
        rw [heq2]
        exact finalConnOf_committed clock' c2 batch2 t2
      refine ⟨?_, ?_, ?_, ?_⟩
      · rw [heq2]
        exact hrep2
      · rw [hD2pend, hD1pend]
        have e1 := congrArg List.length hl1
        have e2 := congrArg List.length hl2
        have e3 := congrArg List.length hbmap
        simp only [List.length_map] at e1 e2 e3
        omega
      · rw [hD2pend, hD1pend, hl1, hl2]
        exact hbmap.symm
      · rw [hD2pend, finalConnOf_log, hc2pend]
        simp [Conn.clearInstruments, Conn.commitNow]

theorem C3_rerun_same_count_witness :
    (importInstruments clockT rows3 (runCommitted clockT rows3 db0)).outcome = .ok ()
    ∧ (runCommitted clockT rows3 (runCommitted clockT rows3 db0)).instruments.length
        = (runCommitted clockT rows3 db0).instruments.length
    ∧ (runCommitted clockT rows3 (runCommitted clockT rows3 db0)).instruments.map instrProj
        = (runCommitted clockT rows3 db0).instruments.map instrProj
    ∧ (runCommitted clockT rows3 (runCommitted clockT rows3 db0)).refreshLog.length
        = (runCommitted clockT rows3 db0).refreshLog.length + 1 :=
  C3_rerun_same_count clockT clockT rows3 db0 (by decide)
